import Mathlib

/-!
Shallow embedding of the SingleStore DDL generation layer
(`ibis_singlestore/ddl.py`): statement descriptors and their `compile`
renderers, storage-format descriptors and their `to_ddl` clause lists, and
the function-signature renderer.  Host-framework helpers that the module
imports (`format_tblproperties`, `format_schema`, `format_partition`,
`BaseDDL._get_scoped_name`) are not part of this repository; they are
modelled from the spec.  Python built-ins used by the module
(`json.dumps`, `base64.b64encode`, `str.__repr__`, `str.rstrip`,
`str.splitlines`, `string.ascii_letters`) are embedded directly.
-/

/-- Errors raised by the embedded renderers, mirroring the Python
exceptions raised in `ddl.py`: `NotImplementedError` (format-inferred
create with no source), `IndexError` (parameter-letter lookup past the end
of `string.ascii_letters`), and `ValueError` with its message. -/
inductive DDLError where
  | notImplementedError : DDLError
  | indexError : DDLError
  | valueError (msg : String) : DDLError
deriving DecidableEq

/-- `a2u` from `ddl.py`, specialised to the `Optional[str]` values it is
applied to in this module: a `str` is returned unchanged and Python
`str(None)` is the text `None`. -/
def a2u : Option String → String
  | some s => s
  | none => "None"

/-- Modelled from the spec: the host framework's name-scoping helper
(`BaseDDL._get_scoped_name`) — a (name, optional namespace) pair collapses
to `namespace.name` or `name`. -/
def _get_scoped_name (obj_name : String) (database : Option String) : String :=
  match database with
  | some db => db ++ "." ++ obj_name
  | none => obj_name

/-- Modelled from the spec: the host framework's property-map renderer
(`format_tblproperties`) — an empty map renders as the empty string,
otherwise a `TBLPROPERTIES` prefix followed by a parenthesized,
comma-joined list of single-quoted `'key'='value'` pairs in insertion
order. -/
def format_tblproperties (props : List (String × String)) : String :=
  if props.isEmpty then ""
  else
    "TBLPROPERTIES ("
      ++ ", ".intercalate (props.map fun p => "'" ++ p.1 ++ "'='" ++ p.2 ++ "'")
      ++ ")"

/-- Modelled from the spec: the host framework's schema renderer
(`format_schema`) — a parenthesized `name type [NOT NULL]` list.  A column
is (name, dialect type, nullable). -/
def format_schema (schema : List (String × String × Bool)) : String :=
  "("
    ++ ", ".intercalate
        (schema.map fun col => col.1 ++ " " ++ col.2.1 ++ (if col.2.2 then "" else " NOT NULL"))
    ++ ")"

/-- Modelled from the spec: the host framework's partition-clause renderer
(`format_partition`) — a `PARTITION (...)` clause built from the partition
spec; the declared partition schema only influences literal formatting,
which no claim depends on. -/
def format_partition (partition : String) (_partition_schema : Option String) : String :=
  "PARTITION (" ++ partition ++ ")"

/-- `CreateTableParquet` from `ddl.py`: a format-inferred create-table
statement holding an output path plus at most one of an example file, an
example table, or an explicit schema. -/
structure CreateTableParquet where
  table_name : String
  path : String
  example_file : Option String := none
  example_table : Option String := none
  schema : Option (List (String × String × Bool)) := none
  external : Bool := true

/-- `CreateTableParquet._pieces`: the source clause chosen by the
`if`/`elif` chain (example file, else example table, else schema, else
`NotImplementedError`), followed by the storage clause and the location
clause.  The base class `_storage`/`_location` clauses (host framework)
are modelled from the spec as `STORED AS PARQUET` and `LOCATION '<path>'`
since the statement is constructed with `format='parquet'` and a path. -/
def CreateTableParquet._pieces (t : CreateTableParquet) : Except DDLError (List String) :=
  match t.example_file, t.example_table, t.schema with
  | some f, _, _ =>
      .ok ["LIKE PARQUET '" ++ f ++ "'", "STORED AS PARQUET", "LOCATION '" ++ t.path ++ "'"]
  | none, some et, _ =>
      .ok ["LIKE " ++ et, "STORED AS PARQUET", "LOCATION '" ++ t.path ++ "'"]
  | none, none, some s =>
      .ok [format_schema s, "STORED AS PARQUET", "LOCATION '" ++ t.path ++ "'"]
  | none, none, none => .error .notImplementedError

/-- `DelimitedFormat` from `ddl.py`. -/
structure DelimitedFormat where
  path : String
  delimiter : Option String := none
  escapechar : Option String := none
  na_rep : Option String := none
  lineterminator : Option String := none

/-- `DelimitedFormat.to_ddl`: the generator's yields collected into a
list, in source order. -/
def DelimitedFormat.to_ddl (f : DelimitedFormat) : List String :=
  ["ROW FORMAT DELIMITED"]
  ++ (match f.delimiter with
      | some d => ["FIELDS TERMINATED BY '" ++ d ++ "'"]
      | none => [])
  ++ (match f.escapechar with
      | some e => ["ESCAPED BY '" ++ e ++ "'"]
      | none => [])
  ++ (match f.lineterminator with
      | some l => ["LINES TERMINATED BY '" ++ l ++ "'"]
      | none => [])
  ++ ["LOCATION '" ++ f.path ++ "'"]
  ++ (match f.na_rep with
      | some n => [format_tblproperties [("serialization.null.format", n)]]
      | none => [])

/-- `LoadData` from `ddl.py`. -/
structure LoadData where
  table_name : String
  database : Option String := none
  path : String
  partition : Option String := none
  partition_schema : Option String := none
  overwrite : Bool := false

/-- `LoadData.compile`. -/
def LoadData.compile (d : LoadData) : String :=
  let overwrite := if d.overwrite then "OVERWRITE " else ""
  let part :=
    match d.partition with
    | some p => "\n" ++ format_partition p d.partition_schema
    | none => ""
  let scoped_name := _get_scoped_name d.table_name d.database
  "LOAD DATA INPATH '" ++ d.path ++ "' " ++ overwrite ++ "INTO TABLE " ++ scoped_name ++ part

/-- `ListFunction` from `ddl.py`. -/
structure ListFunction where
  database : String
  like : Option String := none
  aggregate : Bool := false

/-- `ListFunction.compile`.  The Python condition `if self.like:` is a
truthiness test: the `LIKE` clause is appended only when the pattern is
neither `None` nor the empty string. -/
def ListFunction.compile (l : ListFunction) : String :=
  let statement := "SHOW "
  let statement := if l.aggregate then statement ++ "AGGREGATE " else statement
  let statement := statement ++ "FUNCTIONS IN " ++ l.database
  match l.like with
  | some p => if p = "" then statement else statement ++ " LIKE '" ++ p ++ "'"
  | none => statement

/-! A JSON value, as passed to `json.dumps` for the Avro schema literal.
`JsonList` and `JsonObj` are spelled as mutual inductives so that the
serializer below is structurally recursive.  Numbers are integers (the
module never serializes floating-point schema values). -/
mutual
inductive Json where
  | null : Json
  | bool (b : Bool) : Json
  | num (n : Int) : Json
  | str (s : String) : Json
  | arr (xs : JsonList) : Json
  | obj (kvs : JsonObj) : Json
inductive JsonList where
  | nil : JsonList
  | cons (hd : Json) (tl : JsonList) : JsonList
inductive JsonObj where
  | nil : JsonObj
  | cons (k : String) (v : Json) (tl : JsonObj) : JsonObj
end

/-- Lowercase hexadecimal digit, as used by Python escape sequences. -/
def hexDigit (n : Nat) : Char := "0123456789abcdef".data.getD n '0'

/-- Two lowercase hex digits (Python `\xNN`). -/
def hex2 (n : Nat) : String := ⟨[hexDigit (n / 16 % 16), hexDigit (n % 16)]⟩

/-- Four lowercase hex digits (Python `\uNNNN`). -/
def hex4 (n : Nat) : String :=
  ⟨[hexDigit (n / 4096 % 16), hexDigit (n / 256 % 16), hexDigit (n / 16 % 16), hexDigit (n % 16)]⟩

/-- Python `json` string escaping with the default `ensure_ascii=True`:
`"` and `\` and the short control escapes, `\uNNNN` for other control and
all non-ASCII characters (surrogate pairs above the BMP). -/
def jsonEscapeChar (c : Char) : String :=
  if c = '"' then "\\\""
  else if c = '\\' then "\\\\"
  else if c = '\n' then "\\n"
  else if c = '\r' then "\\r"
  else if c = '\t' then "\\t"
  else if c.toNat = 8 then "\\b"
  else if c.toNat = 12 then "\\f"
  else if 32 ≤ c.toNat ∧ c.toNat ≤ 126 then c.toString
  else if c.toNat < 65536 then "\\u" ++ hex4 c.toNat
  else
    "\\u" ++ hex4 (55296 + (c.toNat - 65536) / 1024)
      ++ "\\u" ++ hex4 (56320 + (c.toNat - 65536) % 1024)

/-- A JSON string literal: quoted and escaped. -/
def jsonQuote (s : String) : String :=
  "\"" ++ String.join (s.data.map jsonEscapeChar) ++ "\""

/-- `n` spaces. -/
def spaces (n : Nat) : String := ⟨List.replicate n ' '⟩

/-- Code-point lexicographic order on strings, as Python `sorted` uses
for `sort_keys=True`. -/
def charListLt : List Char → List Char → Bool
  | [], [] => false
  | [], _ :: _ => true
  | _ :: _, [] => false
  | a :: as, b :: bs =>
      if a.toNat < b.toNat then true
      else if b.toNat < a.toNat then false
      else charListLt as bs

/-- Key comparison for `sort_keys=True`. -/
def keyLt (a b : String) : Bool := charListLt a.data b.data

/-- Stable insertion into a key-sorted list of (key, rendered value)
pairs. -/
def insertItem (p : String × String) : List (String × String) → List (String × String)
  | [] => [p]
  | q :: rest => if keyLt q.1 p.1 then q :: insertItem p rest else p :: q :: rest

/-- Stable sort by key — the effect of `sort_keys=True` on one object's
items. -/
def sortItems : List (String × String) → List (String × String)
  | [] => []
  | p :: rest => insertItem p (sortItems rest)

/-- Renders one object's already-serialized items at the given indent:
`"key": value` lines joined by `,\n`. -/
def renderItems (ind : Nat) (first : String × String) (rest : List (String × String)) : String :=
  spaces ind ++ jsonQuote first.1 ++ ": " ++ first.2
    ++ String.join (rest.map fun p => ",\n" ++ spaces ind ++ jsonQuote p.1 ++ ": " ++ p.2)

/-! Python `json.dumps(..., indent=2, sort_keys=True)`: `lvl` is the
nesting level (the current indent is `2 * lvl`).  Containers open, list
their members one per line at the deeper indent, and close at the current
indent; empty containers render inline.  Object items are sorted by key;
sorting the serialized items by key is equivalent to Python's sorting of
the items before serializing, since a member's text does not depend on
its position. -/
mutual
def dumpJson (lvl : Nat) : Json → String
  | .null => "null"
  | .bool b => if b then "true" else "false"
  | .num n => toString n
  | .str s => jsonQuote s
  | .arr .nil => "[]"
  | .arr (.cons x tl) =>
      "[\n" ++ spaces (2 * (lvl + 1)) ++ dumpJson (lvl + 1) x
        ++ dumpJsonList (lvl + 1) tl ++ "\n" ++ spaces (2 * lvl) ++ "]"
  | .obj kvs =>
      match sortItems (dumpItems (lvl + 1) kvs) with
      | [] => "\x7b\x7d"
      | it :: rest =>
          "\x7b\n" ++ renderItems (2 * (lvl + 1)) it rest
            ++ "\n" ++ spaces (2 * lvl) ++ "\x7d"
def dumpJsonList (lvl : Nat) : JsonList → String
  | .nil => ""
  | .cons x tl => ",\n" ++ spaces (2 * lvl) ++ dumpJson lvl x ++ dumpJsonList lvl tl
def dumpItems (lvl : Nat) : JsonObj → List (String × String)
  | .nil => []
  | .cons k v tl => (k, dumpJson lvl v) :: dumpItems lvl tl
end

/-- `json.dumps(value, indent=2, sort_keys=True)`. -/
def json_dumps (j : Json) : String := dumpJson 0 j

/-- Python whitespace characters stripped by `str.rstrip()` (the ASCII
ones; the serialized schema contains no other whitespace). -/
def isPySpace (c : Char) : Bool :=
  c = ' ' || c = '\t' || c = '\n' || c = '\r' || c.toNat = 11 || c.toNat = 12

/-- Python `str.rstrip()`. -/
def rstrip (s : String) : String := ⟨(s.data.reverse.dropWhile isPySpace).reverse⟩

/-- Python `str.splitlines()` restricted to `\n` line breaks — the only
break character `json.dumps` output can contain, since `ensure_ascii`
escaping removes every other line-break character. -/
def splitLinesAux : List Char → List Char → List String
  | [], acc => [⟨acc.reverse⟩]
  | '\n' :: rest, acc => String.mk acc.reverse :: splitLinesAux rest []
  | c :: rest, acc => splitLinesAux rest (c :: acc)

/-- Python `str.splitlines()` (see `splitLinesAux`); like Python, a
trailing line break does not produce a final empty line. -/
def splitlines (s : String) : List String :=
  match s.data with
  | [] => []
  | l =>
      match (splitLinesAux l []).reverse with
      | "" :: rest => rest.reverse
      | lines => lines.reverse

/-- `AvroFormat` from `ddl.py`.  The schema is the JSON value handed to
`json.dumps`. -/
structure AvroFormat where
  path : String
  avro_schema : Json

/-- `AvroFormat.to_ddl`: `STORED AS AVRO`, the location clause, then the
properties clause carrying the pretty-printed, key-sorted, per-line
right-stripped schema text under `avro.schema.literal`. -/
def AvroFormat.to_ddl (f : AvroFormat) : List String :=
  let schema := json_dumps f.avro_schema
  let schema := "\n".intercalate ((splitlines schema).map rstrip)
  ["STORED AS AVRO",
   "LOCATION '" ++ f.path ++ "'",
   format_tblproperties [("avro.schema.literal", schema)]]

/-- `string.ascii_letters`: the lowercase then uppercase alphabet. -/
def ascii_letters : String := "abcdefghijklmnopqrstuvwxyzABCDEFGHIJKLMNOPQRSTUVWXYZ"

/-- The single-letter parameter name for position `i`:
`string.ascii_letters[i]`.  The renderer below only evaluates this under
its `i < 52` bound, where the default is unreachable. -/
def paramName (i : Nat) : String := (ascii_letters.data.getD i '?').toString

/-- The rendered parameter list of `_singlestore_input_signature`'s list
comprehension: position `i` (counting from `start`) renders as
`<letter> <dialect-type> NOT NULL`. -/
def signature_tokens {T : Type} (tts : T → String) : Nat → List T → List String
  | _, [] => []
  | i, x :: rest => (paramName i ++ " " ++ tts x ++ " NOT NULL") :: signature_tokens tts (i + 1) rest

/-- `_singlestore_input_signature` from `ddl.py`: the comma-joined
parameter list, parameter names drawn from `string.ascii_letters` by
position.  Indexing `string.ascii_letters[i]` raises `IndexError` once
the input count exceeds the 52 letters, producing no signature string.
`tts` stands for the host framework's `type_to_sql_string`. -/
def _singlestore_input_signature {T : Type} (tts : T → String) (inputs : List T) :
    Except DDLError String :=
  if inputs.length ≤ 52 then
    .ok (", ".intercalate (signature_tokens tts 0 inputs))
  else .error .indexError

/-- Modelled from the spec: the runtime and library-kind tags of the
function descriptor (`SingleStoreUDF` in the repository's `udf` module,
which is not under `src/`).  The spec's closed runtime set
(WASM / Python) and library kinds (file reference / embedded module) are
represented by distinguished string constants; `ddl.py` only ever
compares `func.language` and `func.type` against them for equality. -/
def LANGUAGE_WASM : String := "wasm"

/-- Modelled from the spec: see `LANGUAGE_WASM`. -/
def LANGUAGE_PYTHON : String := "python"

/-- Modelled from the spec: see `LANGUAGE_WASM`. -/
def TYPE_FILE : String := "file"

/-- Modelled from the spec: see `LANGUAGE_WASM`. -/
def TYPE_MODULE : String := "module"

/-- Modelled from the spec: the scalar function descriptor's fields read
by `ddl.py` — symbol, input types, output type, declared runtime
(`language`), library kind (`type`) and library reference (path or
content, optional). -/
structure SingleStoreUDF (T : Type) where
  name : String
  symbol : String
  inputs : List T
  output : T
  language : String
  type : String
  library : Option String := none

/-- Modelled from the spec: the aggregate function descriptor — the
scalar descriptor's fields plus the five optional lifecycle hooks. -/
structure SingleStoreUDA (T : Type) extends SingleStoreUDF T where
  init_fn : Option String := none
  update_fn : Option String := none
  merge_fn : Option String := none
  serialize_fn : Option String := none
  finalize_fn : Option String := none

/-- `CreateFunction._singlestore_signature` from `ddl.py`:
`<scoped-symbol>(<inputs>) RETURNS <output> NOT NULL`. -/
def _singlestore_signature {T : Type} (tts : T → String) (f : SingleStoreUDF T)
    (database : Option String) : Except DDLError String :=
  match _singlestore_input_signature tts f.inputs with
  | .error e => .error e
  | .ok input_sig =>
      .ok (_get_scoped_name f.symbol database ++ "(" ++ input_sig ++ ") RETURNS "
            ++ tts f.output ++ " NOT NULL")

/-- Python `str.__repr__`, as invoked by `'{!r}'.format(...)`: the quote
is `'` unless the text contains `'` but no `"`; backslashes, the quote,
and the short control escapes are backslash-escaped; other control
characters (and DEL) use `\xNN`.  Printable characters are kept as
written. -/
def pyReprChar (q : Char) (c : Char) : String :=
  if c = '\\' then "\\\\"
  else if c = q then "\\" ++ q.toString
  else if c = '\n' then "\\n"
  else if c = '\r' then "\\r"
  else if c = '\t' then "\\t"
  else if c.toNat < 32 ∨ c.toNat = 127 then "\\x" ++ hex2 c.toNat
  else c.toString

/-- See `pyReprChar`. -/
def pyRepr (s : String) : String :=
  let q : Char := if s.data.contains '\'' && !(s.data.contains '"') then '"' else '\''
  q.toString ++ String.join (s.data.map (pyReprChar q)) ++ q.toString

/-- UTF-8 bytes of one character (Python `bytes(..., 'utf-8')`). -/
def utf8Char (c : Char) : List Nat :=
  let n := c.toNat
  if n < 128 then [n]
  else if n < 2048 then [192 + n / 64, 128 + n % 64]
  else if n < 65536 then [224 + n / 4096, 128 + n / 64 % 64, 128 + n % 64]
  else [240 + n / 262144, 128 + n / 4096 % 64, 128 + n / 64 % 64, 128 + n % 64]

/-- UTF-8 bytes of a string. -/
def strUtf8 (s : String) : List Nat := (s.data.map utf8Char).flatten

/-- The standard base64 alphabet. -/
def base64Chars : List Char :=
  "ABCDEFGHIJKLMNOPQRSTUVWXYZabcdefghijklmnopqrstuvwxyz0123456789+/".data

/-- One base64 digit. -/
def b64c (n : Nat) : Char := base64Chars.getD n '='

/-- `base64.b64encode(...).decode('utf-8')`: standard base64 with `=`
padding over a byte list. -/
def b64encode : List Nat → String
  | [] => ""
  | [a] => ⟨[b64c (a / 4), b64c (a % 4 * 16), '=', '=']⟩
  | [a, b] => ⟨[b64c (a / 4), b64c (a % 4 * 16 + b / 16), b64c (b % 16 * 4), '=']⟩
  | a :: b :: c :: rest =>
      String.mk [b64c (a / 4), b64c (a % 4 * 16 + b / 16), b64c (b % 16 * 4 + c / 64), b64c (c % 64)]
        ++ b64encode rest

/-- `CreateUDF` from `ddl.py` (via `CreateFunction.__init__`): the
descriptor, the resolved statement name, and the target database. -/
structure CreateUDF (T : Type) where
  func : SingleStoreUDF T
  name : String
  database : Option String := none

/-- The `AS WASM` / `AS PYTHON` runtime clause of `CreateUDF.compile`,
or the `ValueError` its `else` branch raises.  The source interpolates
`a2u(self.func.library)` — not the language — into the message, and the
f-string ends with a stray single quote. -/
def udfLanguageClause {T : Type} (c : CreateUDF T) : Except DDLError String :=
  if c.func.language = LANGUAGE_WASM then .ok "AS WASM"
  else if c.func.language = LANGUAGE_PYTHON then .ok "AS PYTHON"
  else .error (.valueError ("Unsupported function language: " ++ a2u c.func.library ++ "'"))

/-- The library clause of `CreateUDF.compile`: `INFILE '<path>'` for a
file-referenced library; for an embedded module, `self.func.library or ''`
is formatted with `{!r}` (Python repr), UTF-8 encoded, base64-encoded and
emitted as a quoted literal; any other kind raises `ValueError`. -/
def udfLibraryClause {T : Type} (c : CreateUDF T) (param_line : String) :
    Except DDLError String :=
  if c.func.type = TYPE_FILE then
    .ok (param_line ++ " INFILE '" ++ a2u c.func.library ++ "'")
  else if c.func.type = TYPE_MODULE then
    .ok (param_line ++ " '" ++ b64encode (strUtf8 (pyRepr (c.func.library.getD ""))) ++ "'")
  else .error (.valueError "Unsupported function format")

/-- `CreateUDF.compile`: signature first (its `IndexError` precedes any
language check), then the runtime clause, then the library clause, joined
with single spaces after the `CREATE OR REPLACE FUNCTION` head. -/
def CreateUDF.compile {T : Type} (tts : T → String) (c : CreateUDF T) :
    Except DDLError String :=
  match _singlestore_signature tts c.func c.database with
  | .error e => .error e
  | .ok singlestore_sig =>
      match udfLanguageClause c with
      | .error e => .error e
      | .ok pl =>
          match udfLibraryClause c pl with
          | .error e => .error e
          | .ok param_line =>
              .ok ("CREATE OR REPLACE FUNCTION" ++ " " ++ singlestore_sig ++ " " ++ param_line)

/-- `CreateUDA` from `ddl.py` (via `CreateFunction.__init__`). -/
structure CreateUDA (T : Type) where
  func : SingleStoreUDA T
  name : String
  database : Option String := none

/-- One lifecycle-hook clause of `CreateUDA.compile`: `hookname="value"`
when the hook is set, nothing when it is `None`. -/
def hook_clause (n : String) : Option String → List String
  | some v => [n ++ "=\"" ++ v ++ "\""]
  | none => []

/-- `CreateUDA.compile`: the signature, then `AS INFILE '<library>'`,
then the hook clauses in the source's fixed tuple order
(init, update, merge, serialize, finalize), unset hooks omitted; the
tokens after the signature are newline-joined. -/
def CreateUDA.compile {T : Type} (tts : T → String) (c : CreateUDA T) :
    Except DDLError String :=
  match _singlestore_signature tts c.func.toSingleStoreUDF c.database with
  | .error e => .error e
  | .ok singlestore_sig =>
      let tokens : List String :=
        ["AS INFILE '" ++ a2u c.func.library ++ "'"]
        ++ hook_clause "init_fn" c.func.init_fn
        ++ hook_clause "update_fn" c.func.update_fn
        ++ hook_clause "merge_fn" c.func.merge_fn
        ++ hook_clause "serialize_fn" c.func.serialize_fn
        ++ hook_clause "finalize_fn" c.func.finalize_fn
      .ok ("CREATE OR REPLACE AGGREGATE FUNCTION" ++ " " ++ singlestore_sig ++ " "
            ++ "\n".intercalate tokens)

/-- A concrete aggregate-function statement with only the update and
finalize hooks set, used to witness the hook-ordering theorem. -/
def c5ex : CreateUDA String :=
  ⟨⟨⟨"agg", "agg", [], "INT", LANGUAGE_WASM, TYPE_FILE, some "/lib/agg.so"⟩,
    none, some "upd", none, none, some "fin"⟩, "agg", none⟩

/-- A concrete embedded-module scalar-function statement whose library
content is unset, used to witness the `None`-library theorem. -/
def c10ex : CreateUDF String :=
  ⟨⟨"f", "f", [], "INT", LANGUAGE_WASM, TYPE_MODULE, none⟩, "f", none⟩

/-- `List.dropWhile` is idempotent. -/
theorem dropWhile_idem (p : Char → Bool) (l : List Char) :
    (l.dropWhile p).dropWhile p = l.dropWhile p := by
  induction l with
  | nil => rfl
  | cons a t ih =>
    by_cases h : p a
    · simp [List.dropWhile_cons, h, ih]
    · simp [List.dropWhile_cons, h]

/-- `rstrip` is idempotent: a right-stripped line has no trailing
whitespace left to strip. -/
theorem rstrip_idem (s : String) : rstrip (rstrip s) = rstrip s := by
  obtain ⟨l⟩ := s
  simp [rstrip, dropWhile_idem]

/-- `signature_tokens` renders exactly the enumerated parameters: the
parameter at position `i` (counting from `start`) is named
`paramName i`. -/
theorem signature_tokens_enumFrom {T : Type} (tts : T → String) (i : Nat) (l : List T) :
    signature_tokens tts i l
      = (List.enumFrom i l).map fun p => paramName p.1 ++ " " ++ tts p.2 ++ " NOT NULL" := by
  induction l generalizing i with
  | nil => rfl
  | cons x rest ih => simp [signature_tokens, List.enumFrom, ih]

/-- C1 (counterexample): with BOTH `example_file` and `example_table` set
— two sources, not exactly one — rendering does not raise: `_pieces`
succeeds, resolving the conflict by precedence in favour of the example
file, contrary to the claim. -/
theorem C1_counterexample :
    CreateTableParquet._pieces
        ⟨"t", "/data/f.parquet", some "/ex.parquet", some "extab", none, true⟩
      = .ok ["LIKE PARQUET '/ex.parquet'", "STORED AS PARQUET",
             "LOCATION '/data/f.parquet'"] := rfl

/-- C1 (amended): rendering a `CreateTableParquet` fails — with the
not-implemented error, raised at render time — exactly when NONE of
{example_file, example_table, schema} is set; when several are set the
render succeeds and the conflict is resolved by precedence
example_file > example_table > schema. -/
theorem C1_pieces_amended (t : CreateTableParquet) :
    (CreateTableParquet._pieces t = Except.error DDLError.notImplementedError
      ↔ t.example_file = none ∧ t.example_table = none ∧ t.schema = none)
    ∧ (∀ f, t.example_file = some f →
        CreateTableParquet._pieces t
          = .ok ["LIKE PARQUET '" ++ f ++ "'", "STORED AS PARQUET",
                 "LOCATION '" ++ t.path ++ "'"])
    ∧ (∀ et, t.example_file = none → t.example_table = some et →
        CreateTableParquet._pieces t
          = .ok ["LIKE " ++ et, "STORED AS PARQUET", "LOCATION '" ++ t.path ++ "'"])
    ∧ (∀ s, t.example_file = none → t.example_table = none → t.schema = some s →
        CreateTableParquet._pieces t
          = .ok [format_schema s, "STORED AS PARQUET", "LOCATION '" ++ t.path ++ "'"]) := by
  obtain ⟨tn, p, ef, et, sc, ex⟩ := t
  refine ⟨?_, ?_, ?_, ?_⟩
  · cases ef <;> cases et <;> cases sc <;> simp [CreateTableParquet._pieces]
  · intro f hf
    cases ef <;> cases hf
    cases et <;> cases sc <;> rfl
  · intro et' h1 h2
    cases ef <;> cases h1
    cases et <;> cases h2
    cases sc <;> rfl
  · intro s h1 h2 h3
    cases ef <;> cases h1
    cases et <;> cases h2
    cases sc <;> cases h3
    rfl

/-- C1 (witness): with exactly the example file set, rendering succeeds
with the `LIKE PARQUET` source clause. -/
theorem C1_witness :
    CreateTableParquet._pieces ⟨"t", "/p", some "/e.parquet", none, none, true⟩
      = .ok ["LIKE PARQUET '/e.parquet'", "STORED AS PARQUET", "LOCATION '/p'"] :=
  (C1_pieces_amended ⟨"t", "/p", some "/e.parquet", none, none, true⟩).2.1 "/e.parquet" rfl

/-- C2 (code bug, evaluated at the failing input): a scalar-function
create whose declared runtime is the unsupported value `javascript` and
whose library is `/lib/x.wasm` raises `ValueError` whose message
interpolates the LIBRARY value (with a stray trailing quote), not the
unsupported runtime value, contradicting the message's own
`Unsupported function language:` prefix. -/
theorem C2_unsupported_language_eval :
    CreateUDF.compile id
        ⟨⟨"f", "f", ["INT"], "INT", "javascript", TYPE_FILE, some "/lib/x.wasm"⟩, "f", none⟩
      = .error (DDLError.valueError "Unsupported function language: /lib/x.wasm'") := rfl

/-- C3: `DelimitedFormat.to_ddl` yields exactly `ROW FORMAT DELIMITED`,
then the `FIELDS TERMINATED BY`, `ESCAPED BY` and `LINES TERMINATED BY`
clauses each present exactly when the corresponding option is set, then
the `LOCATION` clause, then the `serialization.null.format` properties
clause exactly when `na_rep` is set — in that order. -/
theorem C3_delimited_to_ddl (f : DelimitedFormat) :
    DelimitedFormat.to_ddl f
      = ["ROW FORMAT DELIMITED"]
        ++ (f.delimiter.map fun d => "FIELDS TERMINATED BY '" ++ d ++ "'").toList
        ++ (f.escapechar.map fun e => "ESCAPED BY '" ++ e ++ "'").toList
        ++ (f.lineterminator.map fun l => "LINES TERMINATED BY '" ++ l ++ "'").toList
        ++ ["LOCATION '" ++ f.path ++ "'"]
        ++ (f.na_rep.map fun n =>
              format_tblproperties [("serialization.null.format", n)]).toList := by
  obtain ⟨p, d, e, na, lt⟩ := f
  cases d <;> cases e <;> cases na <;> cases lt <;> rfl

/-- C4: `AvroFormat.to_ddl` yields exactly `STORED AS AVRO`, the
`LOCATION` clause, and a properties clause whose single key is
`avro.schema.literal` and whose value is the schema serialized by
`json.dumps(..., indent=2, sort_keys=True)` with every line
right-stripped; moreover every line of that value has no trailing
whitespace left (`rstrip` fixes each one). -/
theorem C4_avro_to_ddl (f : AvroFormat) :
    (AvroFormat.to_ddl f
      = ["STORED AS AVRO", "LOCATION '" ++ f.path ++ "'",
         format_tblproperties [("avro.schema.literal",
           "\n".intercalate ((splitlines (json_dumps f.avro_schema)).map rstrip))]])
    ∧ ∀ l, l ∈ (splitlines (json_dumps f.avro_schema)).map rstrip → rstrip l = l := by
  refine ⟨rfl, ?_⟩
  intro l hl
  obtain ⟨x, _, rfl⟩ := List.mem_map.1 hl
  exact rstrip_idem x

/-- C4 (witness): the Avro clauses at a concrete schema. -/
theorem C4_witness :
    AvroFormat.to_ddl ⟨"/data/x.avro", Json.null⟩
      = ["STORED AS AVRO", "LOCATION '/data/x.avro'",
         "TBLPROPERTIES ('avro.schema.literal'='null')"]
    ∧ rstrip "null" = "null" :=
  ⟨((C4_avro_to_ddl ⟨"/data/x.avro", Json.null⟩).1).trans (by rfl),
   (C4_avro_to_ddl ⟨"/data/x.avro", Json.null⟩).2 "null" (by decide)⟩

/-- C5: `CreateUDA.compile` always emits the `AS INFILE '<library>'`
clause first, then one `hookname="value"` clause for exactly those
lifecycle hooks that are set, in the fixed order init, update, merge,
serialize, finalize; in particular with only `update_fn` and
`finalize_fn` set the hook clauses are exactly the update clause followed
by the finalize clause. -/
theorem C5_uda_hook_clauses {T : Type} (tts : T → String) (c : CreateUDA T)
    (h : c.func.inputs.length ≤ 52) :
    (∃ sig, CreateUDA.compile tts c
        = .ok ("CREATE OR REPLACE AGGREGATE FUNCTION" ++ " " ++ sig ++ " "
            ++ "\n".intercalate
                (["AS INFILE '" ++ a2u c.func.library ++ "'"]
                  ++ hook_clause "init_fn" c.func.init_fn
                  ++ hook_clause "update_fn" c.func.update_fn
                  ++ hook_clause "merge_fn" c.func.merge_fn
                  ++ hook_clause "serialize_fn" c.func.serialize_fn
                  ++ hook_clause "finalize_fn" c.func.finalize_fn)))
    ∧ (∀ u fz, c.func.init_fn = none → c.func.merge_fn = none →
        c.func.serialize_fn = none → c.func.update_fn = some u →
        c.func.finalize_fn = some fz →
        hook_clause "init_fn" c.func.init_fn ++ hook_clause "update_fn" c.func.update_fn
          ++ hook_clause "merge_fn" c.func.merge_fn
          ++ hook_clause "serialize_fn" c.func.serialize_fn
          ++ hook_clause "finalize_fn" c.func.finalize_fn
          = ["update_fn=\"" ++ u ++ "\"", "finalize_fn=\"" ++ fz ++ "\""]) := by
  constructor
  · refine ⟨_get_scoped_name c.func.symbol c.database ++ "("
        ++ ", ".intercalate (signature_tokens tts 0 c.func.inputs) ++ ") RETURNS "
        ++ tts c.func.output ++ " NOT NULL", ?_⟩
    unfold CreateUDA.compile _singlestore_signature _singlestore_input_signature
    rw [if_pos h]
  · intro u fz h1 h2 h3 h4 h5
    rw [h1, h2, h3, h4, h5]
    rfl

/-- C5 (witness): the hook clauses of a concrete aggregate create with
only update and finalize set. -/
theorem C5_witness :
    hook_clause "init_fn" c5ex.func.init_fn ++ hook_clause "update_fn" c5ex.func.update_fn
      ++ hook_clause "merge_fn" c5ex.func.merge_fn
      ++ hook_clause "serialize_fn" c5ex.func.serialize_fn
      ++ hook_clause "finalize_fn" c5ex.func.finalize_fn
      = ["update_fn=\"upd\"", "finalize_fn=\"fin\""] :=
  (C5_uda_hook_clauses id c5ex (by decide)).2 "upd" "fin" rfl rfl rfl rfl rfl

/-- C6: for at most 52 inputs the signature renderer succeeds, parameter
`i` (0-based) being rendered as `<letter i> <dialect-type> NOT NULL` with
the letter drawn from the lowercase-then-uppercase alphabet at position
`i`, comma-joined; and the parameter names used are pairwise distinct. -/
theorem C6_signature_letters {T : Type} (tts : T → String) (inputs : List T)
    (h : inputs.length ≤ 52) :
    _singlestore_input_signature tts inputs
      = .ok (", ".intercalate
          ((List.enumFrom 0 inputs).map fun p => paramName p.1 ++ " " ++ tts p.2 ++ " NOT NULL"))
    ∧ ((List.range inputs.length).map paramName).Nodup := by
  constructor
  · unfold _singlestore_input_signature
    rw [if_pos h, signature_tokens_enumFrom]
  · exact List.Nodup.sublist ((List.range_sublist.mpr h).map paramName) (by decide)

/-- C6 (witness): a two-parameter signature. -/
theorem C6_witness :
    _singlestore_input_signature id ["INT", "DOUBLE"] = .ok "a INT NOT NULL, b DOUBLE NOT NULL"
    ∧ ((List.range 2).map paramName).Nodup :=
  ⟨((C6_signature_letters id ["INT", "DOUBLE"] (by decide)).1).trans (by rfl),
   (C6_signature_letters id ["INT", "DOUBLE"] (by decide)).2⟩

/-- C7: with more than 52 inputs the signature renderer fails (the
`string.ascii_letters[i]` lookup raises `IndexError`), producing no
signature string and applying no fallback naming. -/
theorem C7_too_many_parameters {T : Type} (tts : T → String) (inputs : List T)
    (h : 52 < inputs.length) :
    _singlestore_input_signature tts inputs = .error DDLError.indexError := by
  unfold _singlestore_input_signature
  rw [if_neg (by omega)]

/-- C7 (witness): 53 inputs fail. -/
theorem C7_witness :
    _singlestore_input_signature id (List.replicate 53 "INT") = .error DDLError.indexError :=
  C7_too_many_parameters id (List.replicate 53 "INT") (by decide)

/-- C8: `compile` is deterministic and depends only on the descriptor's
fields — two `LoadData` descriptors with equal fields compile to the same
string, and two `CreateUDA` statements with equal function descriptors
and databases compile to the same string (no other state is read). -/
theorem C8_compile_deterministic :
    (∀ a b : LoadData,
        a.table_name = b.table_name → a.database = b.database → a.path = b.path →
        a.partition = b.partition → a.partition_schema = b.partition_schema →
        a.overwrite = b.overwrite → LoadData.compile a = LoadData.compile b)
    ∧ ∀ (tts : String → String) (a b : CreateUDA String),
        a.func = b.func → a.database = b.database →
        CreateUDA.compile tts a = CreateUDA.compile tts b := by
  constructor
  · rintro ⟨t1, d1, p1, pt1, ps1, o1⟩ ⟨t2, d2, p2, pt2, ps2, o2⟩ h1 h2 h3 h4 h5 h6
    cases h1; cases h2; cases h3; cases h4; cases h5; cases h6; rfl
  · rintro tts ⟨f1, n1, d1⟩ ⟨f2, n2, d2⟩ h1 h2
    cases h1; cases h2; rfl

/-- C8 (witness): determinism at concrete descriptors. -/
theorem C8_witness :
    LoadData.compile ⟨"t", none, "/p", none, none, false⟩
        = LoadData.compile ⟨"t", none, "/p", none, none, false⟩
    ∧ CreateUDA.compile id
          ⟨⟨⟨"g", "g", [], "INT", LANGUAGE_WASM, TYPE_FILE, some "/l.so"⟩,
            none, none, none, none, none⟩, "g", none⟩
        = CreateUDA.compile id
          ⟨⟨⟨"g", "g", [], "INT", LANGUAGE_WASM, TYPE_FILE, some "/l.so"⟩,
            none, none, none, none, none⟩, "g", none⟩ :=
  ⟨C8_compile_deterministic.1 _ _ rfl rfl rfl rfl rfl rfl,
   C8_compile_deterministic.2 id _ _ rfl rfl⟩

/-- C9: `ListFunction.compile` tests the like-pattern for truthiness, so
an empty pattern is treated exactly like an unset one: the `LIKE` clause
is omitted and the output is the plain `SHOW [AGGREGATE ]FUNCTIONS IN`
statement. -/
theorem C9_empty_like_pattern (db : String) (agg : Bool) :
    ListFunction.compile ⟨db, some "", agg⟩ = ListFunction.compile ⟨db, none, agg⟩
    ∧ ListFunction.compile ⟨db, some "", agg⟩
        = (if agg then "SHOW " ++ "AGGREGATE " else "SHOW ") ++ "FUNCTIONS IN " ++ db := by
  cases agg <;> exact ⟨rfl, rfl⟩

/-- C10: an embedded-module scalar create (`TYPE_MODULE`) with an unset
library does not fail on the library: the content falls back to the
empty string, whose Python repr is two quote characters, UTF-8 and then
base64 encoded to `Jyc=`, so (with a supported runtime and a renderable
signature) the compiled statement ends in the non-empty quoted base64
literal `'Jyc='`. -/
theorem C10_module_library_none {T : Type} (tts : T → String) (c : CreateUDF T)
    (hlang : c.func.language = LANGUAGE_WASM ∨ c.func.language = LANGUAGE_PYTHON)
    (hty : c.func.type = TYPE_MODULE) (hlib : c.func.library = none)
    (hlen : c.func.inputs.length ≤ 52) :
    b64encode (strUtf8 (pyRepr "")) = "Jyc="
    ∧ ∃ t, CreateUDF.compile tts c = .ok (t ++ " 'Jyc='") := by
  refine ⟨rfl, ?_⟩
  have hsig : _singlestore_signature tts c.func c.database
      = .ok (_get_scoped_name c.func.symbol c.database ++ "("
          ++ ", ".intercalate (signature_tokens tts 0 c.func.inputs) ++ ") RETURNS "
          ++ tts c.func.output ++ " NOT NULL") := by
    unfold _singlestore_signature _singlestore_input_signature
    rw [if_pos hlen]
  have hpl : ∀ pl, udfLibraryClause c pl = .ok (pl ++ " '" ++ "Jyc=" ++ "'") := by
    intro pl
    unfold udfLibraryClause
    rw [hty, hlib, if_neg (by decide : ¬(TYPE_MODULE = TYPE_FILE)), if_pos rfl]
    rfl
  rcases hlang with h | h
  · have hlc : udfLanguageClause c = .ok "AS WASM" := by
      unfold udfLanguageClause
      rw [h, if_pos rfl]
    refine ⟨"CREATE OR REPLACE FUNCTION" ++ " "
        ++ (_get_scoped_name c.func.symbol c.database ++ "("
            ++ ", ".intercalate (signature_tokens tts 0 c.func.inputs) ++ ") RETURNS "
            ++ tts c.func.output ++ " NOT NULL") ++ " " ++ "AS WASM", ?_⟩
    simp only [CreateUDF.compile, hsig, hlc, hpl "AS WASM"]
    simp only [String.append_assoc]
    rfl
  · have hlc : udfLanguageClause c = .ok "AS PYTHON" := by
      unfold udfLanguageClause
      rw [h, if_neg (by decide : ¬(LANGUAGE_PYTHON = LANGUAGE_WASM)), if_pos rfl]
    refine ⟨"CREATE OR REPLACE FUNCTION" ++ " "
        ++ (_get_scoped_name c.func.symbol c.database ++ "("
            ++ ", ".intercalate (signature_tokens tts 0 c.func.inputs) ++ ") RETURNS "
            ++ tts c.func.output ++ " NOT NULL") ++ " " ++ "AS PYTHON", ?_⟩
    simp only [CreateUDF.compile, hsig, hlc, hpl "AS PYTHON"]
    simp only [String.append_assoc]
    rfl

/-- C10 (witness): the concrete embedded-module statement with no
library content compiles to a statement ending in `'Jyc='`. -/
theorem C10_witness :
    CreateUDF.compile id c10ex
      = .ok "CREATE OR REPLACE FUNCTION f() RETURNS INT NOT NULL AS WASM 'Jyc='" := by
  have h := C10_module_library_none id c10ex (Or.inl rfl) rfl rfl (by decide)
  exact rfl
